import Mathlib

/-!
Verification development for the VergeGrid installer utilities.

This file gives a shallow embedding, in Lean 4, of two components of the
VergeGrid repository and proves the specified properties about them:

* `src/Installer/setup/verify-db-robust.py` — the Robust database verifier
  (`verify_robust_db`) and the controlled launch-and-verify driver
  (`launch_and_verify`);
* `src/Installer/Saved/vergegrid_cleanup.py` — the backup routine
  (`backup_install`), together with the configuration defaults from
  `src/Installer/vergegrid_common.py`.

External effects (the MySQL server, the process table, the file system, the
archive integrity test) are modelled as an explicit environment record that the
embedded functions consume; log output is modelled as a list of structured
messages mirroring the `print` / `write_log` calls of the source.
-/

namespace VergeGrid

/-! ## Embedding of `verify_robust_db`
(`src/Installer/setup/verify-db-robust.py`, lines 38–117) -/

/-- The `CORE_TABLES` constant (lines 43–47 of `verify-db-robust.py`). -/
def CORE_TABLES : List String :=
  ["assets", "auth", "avatars", "friends", "griduser",
   "inventoryfolders", "inventoryitems", "presence",
   "regions", "tokens", "useraccounts"]

/-- The `OPTIONAL_TABLES` constant (line 49 of `verify-db-robust.py`). -/
def OPTIONAL_TABLES : List String := ["agentprefs", "migrations", "muteList"]

/-- State of the external MySQL data store as observed by one call to
`verify_robust_db`: whether `pymysql.connect` succeeds, and if so which
tables `SHOW TABLES` reports. -/
structure DBState where
  connectOk : Bool
  tables : List String
deriving Repr, DecidableEq

/-- Log messages emitted by `verify_robust_db`, mirroring its
`print` / `common.write_log` calls. -/
inductive VMsg
  | fatalConnect
  | fatalMissingCore (ts : List String)
  | okCoreVerified
  | infoOptionalMissing (ts : List String)
deriving Repr, DecidableEq

/-- Embedding of `verify_robust_db` (lines 55–117).  Returns the result code
(`1` = MySQL connection failed, `2` = critical tables missing, `0` = all core
tables present) together with the log messages.  The record-count queries
(lines 105–113) only log counts and never change the result code, so they are
elided. -/
def verify_robust_db (db : DBState) : Nat × List VMsg :=
  if !db.connectOk then
    (1, [.fatalConnect])
  else
    let missing_core := CORE_TABLES.filter (fun t => !db.tables.contains t)
    let missing_optional := OPTIONAL_TABLES.filter (fun t => !db.tables.contains t)
    let (result_code, coreLog) :=
      if !missing_core.isEmpty then (2, [VMsg.fatalMissingCore missing_core])
      else (0, [VMsg.okCoreVerified])
    let optLog :=
      if !missing_optional.isEmpty then [VMsg.infoOptionalMissing missing_optional]
      else []
    (result_code, coreLog ++ optLog)

/-! ## Embedding of `launch_and_verify`
(`src/Installer/setup/verify-db-robust.py`, lines 123–271) -/

/-- Environment of one `launch_and_verify` run: the file-system and process
facts that the Python code observes, in the order it observes them.
`runningInit i` is `proc.is_running()` at iteration `i` of the 10-iteration
start-up loop; `cpuActive i` is the test `cpu > 0.1` there.  `runningW1 t`
(resp. `runningW2 t`) is `proc.is_running()` at elapsed tick `t` of the first
(resp. second) 30-second wait window.  `stillAfterBreak` / `stillAfterTerm`
model `robust_process.poll() is None` after `CTRL_BREAK_EVENT` + 10 s and after
`terminate()` + 5 s; `shutdownRaises` models an exception escaping the
shutdown `try` block. -/
structure LVEnv where
  exeExists : Bool
  iniExists : Bool
  launchOk : Bool
  attachOk : Bool
  runningInit : Nat → Bool
  cpuActive : Nat → Bool
  runningW1 : Nat → Bool
  db1 : DBState
  runningW2 : Nat → Bool
  db2 : DBState
  stillAfterBreak : Bool
  stillAfterTerm : Bool
  shutdownRaises : Bool

/-- The start-up responsiveness loop (lines 170–180): `for i in range(10)`,
breaking (returning `true`) as soon as the attached process is running with
`cpu > 0.1`; when the loop falls through (the Python `for`-`else`), the code
merely warns and continues, which we model by returning `false`. -/
def initWait (attached : Bool) (running cpu : Nat → Bool) : Nat → Nat → Bool
  | 0, _ => false
  | n + 1, i =>
    if attached && running i then
      if cpu i then true else initWait attached running cpu n (i + 1)
    else
      initWait attached running cpu n (i + 1)

/-- One of the two 30-second wait windows (lines 188–196 and 230–238):
`for remaining in range(total, 0, -1)` where each iteration first checks
`if proc and not proc.is_running()` and returns early, then sleeps one
second.  `some t` means early process exit was detected at elapsed tick `t`;
`none` means the window ran to completion. -/
def waitWindow (attached : Bool) (running : Nat → Bool) : Nat → Nat → Option Nat
  | 0, _ => none
  | n + 1, t =>
    if attached && !running t then some t
    else waitWindow attached running n (t + 1)

/-- Outcome of the graceful-stop sequence (lines 252–269): send
`CTRL_BREAK_EVENT`, sleep 10 s; if `poll()` is still `None`, `terminate()` and
sleep 5 s; if still `None`, `kill()`.  Any exception in the block is caught
and logged as a warning. -/
inductive StopOutcome
  | stoppedAfterBreak
  | stoppedAfterTerminate
  | forceKilled
  | raised
deriving Repr, DecidableEq

/-- The escalating shutdown sequence of lines 252–269 as a function of the
environment. -/
def shutdownSeq (env : LVEnv) : StopOutcome :=
  if env.shutdownRaises then .raised
  else if !env.stillAfterBreak then .stoppedAfterBreak
  else if !env.stillAfterTerm then .stoppedAfterTerminate
  else .forceKilled

/-- The fatal categories of `launch_and_verify`, one per early-`return`
site with a non-zero code (lines 142, 147, 158, 195, 237, 247). -/
inductive FatalCat
  | exeMissing
  | iniMissing
  | launchFailed
  | exitedWait1
  | exitedWait2
  | incompleteAfterRetry
deriving Repr, DecidableEq

/-- Log messages of `launch_and_verify` (its own `print`/`write_log` calls;
verifier messages are embedded via `VMsg`). -/
inductive LMsg
  | fatalMissingExe
  | fatalMissingIni
  | fatalLaunchFailed
  | warnSlowStart
  | errExitedWait1
  | errExitedWait2
  | okFirstPass
  | warnNotComplete
  | fatalAfterSecondCheck
  | warnLeftRunning
  | okStoppedCleanly
  | warnShutdownFailed
  | verify (m : VMsg)
deriving Repr, DecidableEq

/-- Observable trace of one `launch_and_verify` run.  `w1Ticks` / `w2Ticks`
count the loop iterations actually executed in each wait window (`0` when the
window was never entered); `pass1` / `pass2` record the result codes of the
verification passes that were performed; `verifiedComplete` is set exactly
when a verification pass returned `0`; `stopSeq` records the shutdown
escalation outcome when the shutdown block was reached. -/
structure LVRun where
  exitCode : Nat
  fatalCat : Option FatalCat := none
  launched : Bool := false
  responsive : Bool := false
  w1Ticks : Nat := 0
  enteredRetryWait : Bool := false
  w2Ticks : Nat := 0
  pass1 : Option Nat := none
  pass2 : Option Nat := none
  verifiedComplete : Bool := false
  stopSeq : Option StopOutcome := none
  logs : List LMsg := []
deriving Repr, DecidableEq

/-- Embedding of `launch_and_verify` (lines 123–271).  The purely cosmetic
countdown before shutdown on the first-pass-success path (lines 217–223)
performs no liveness checks and is elided, as are the `mkdir` of the log
directory and the log-file plumbing. -/
def launch_and_verify (env : LVEnv) : LVRun :=
  if !env.exeExists then
    { exitCode := 1, fatalCat := some .exeMissing, logs := [.fatalMissingExe] }
  else if !env.iniExists then
    { exitCode := 2, fatalCat := some .iniMissing, logs := [.fatalMissingIni] }
  else if !env.launchOk then
    { exitCode := 3, fatalCat := some .launchFailed, logs := [.fatalLaunchFailed] }
  else
    let responsive := initWait env.attachOk env.runningInit env.cpuActive 10 0
    let startLogs : List LMsg := if responsive then [] else [.warnSlowStart]
    match waitWindow env.attachOk env.runningW1 30 0 with
    | some t =>
      { exitCode := 4, fatalCat := some .exitedWait1, launched := true,
        responsive := responsive, w1Ticks := t + 1,
        logs := startLogs ++ [.errExitedWait1] }
    | none =>
      let (r1, vlogs1) := verify_robust_db env.db1
      if r1 = 0 then
        let stop := shutdownSeq env
        { exitCode := 0, launched := true, responsive := responsive,
          w1Ticks := 30, pass1 := some r1, verifiedComplete := true,
          stopSeq := some stop,
          logs := startLogs ++ vlogs1.map LMsg.verify ++ [.okFirstPass] ++
            (if stop = .raised then [LMsg.warnShutdownFailed]
             else [LMsg.okStoppedCleanly]) }
      else
        match waitWindow env.attachOk env.runningW2 30 0 with
        | some t =>
          { exitCode := 5, fatalCat := some .exitedWait2, launched := true,
            responsive := responsive, w1Ticks := 30,
            enteredRetryWait := true, w2Ticks := t + 1, pass1 := some r1,
            logs := startLogs ++ vlogs1.map LMsg.verify ++
              [.warnNotComplete, .errExitedWait2] }
        | none =>
          let (r2, vlogs2) := verify_robust_db env.db2
          if r2 ≠ 0 then
            { exitCode := 2, fatalCat := some .incompleteAfterRetry,
              launched := true, responsive := responsive, w1Ticks := 30,
              enteredRetryWait := true, w2Ticks := 30, pass1 := some r1,
              pass2 := some r2,
              logs := startLogs ++ vlogs1.map LMsg.verify ++
                [.warnNotComplete] ++ vlogs2.map LMsg.verify ++
                [.fatalAfterSecondCheck, .warnLeftRunning] }
          else
            let stop := shutdownSeq env
            { exitCode := 0, launched := true, responsive := responsive,
              w1Ticks := 30, enteredRetryWait := true, w2Ticks := 30,
              pass1 := some r1, pass2 := some r2, verifiedComplete := true,
              stopSeq := some stop,
              logs := startLogs ++ vlogs1.map LMsg.verify ++
                [.warnNotComplete] ++ vlogs2.map LMsg.verify ++
                (if stop = .raised then [LMsg.warnShutdownFailed]
                 else [LMsg.okStoppedCleanly]) }

/-- The exit code attached to each terminal category by the `return`
statements of `launch_and_verify` (`none` = success, code `0`). -/
def codeOfCat : Option FatalCat → Nat
  | none => 0
  | some .exeMissing => 1
  | some .iniMissing => 2
  | some .launchFailed => 3
  | some .exitedWait1 => 4
  | some .exitedWait2 => 5
  | some .incompleteAfterRetry => 2

/-! ## Embedding of `backup_install`
(`src/Installer/Saved/vergegrid_cleanup.py`, lines 174–375, together with the
configuration defaults of `src/Installer/vergegrid_common.py`) -/

/-- File-system snapshot as observed by the path scan of `backup_install`
(lines 218–228): `pathExists p` is `os.path.exists(p)`, `isFile p` is
`os.path.isfile(p)`, and `walkFiles p` is the list of file paths collected by
`os.walk(p)` when `p` is a directory. -/
structure FS where
  pathExists : String → Bool
  isFile : String → Bool
  walkFiles : String → List String

/-- The configuration dictionary produced by `load_vergegrid_config`
(`vergegrid_common.py`): the four component-root keys may be absent (in which
case `backup_install` falls back to `os.path.join` defaults via
`config.get`), and `backup_max_retries` is always present (default `3`). -/
structure Config where
  PHP_ROOT : Option String := none
  APACHE_ROOT : Option String := none
  MYSQL_ROOT : Option String := none
  OPEN_SIM_ROOT : Option String := none
  backup_max_retries : Nat := 3

/-- Windows-style `os.path.join` for one component. -/
def winJoin (a b : String) : String := a ++ "\\" ++ b

/-- `s.lower()` at the level of character data. -/
def lowerData (s : String) : List Char := s.data.map Char.toLower

/-- The test `a.lower().startswith(b.lower())` of line 201. -/
def lowerStarts (a b : String) : Bool :=
  List.isPrefixOf (lowerData b) (lowerData a)

/-- The `paths_to_backup` list of lines 196–213: the four configured component
roots (with `os.path.join` fall-backs), `Logs`, `Downloads` and
`vergegrid.conf` under the install root, plus `PHP_ROOT` unless it already
lies under `APACHE_ROOT` (the double-inclusion guard of lines 200–202). -/
def pathsToBackup (root : String) (cfg : Config) : List String :=
  let php_root := cfg.PHP_ROOT.getD (winJoin (winJoin root "Apache") "php")
  let apache_root := cfg.APACHE_ROOT.getD (winJoin root "Apache")
  let base :=
    [cfg.MYSQL_ROOT.getD (winJoin root "MySQL"),
     apache_root,
     cfg.OPEN_SIM_ROOT.getD (winJoin root "OpenSim"),
     winJoin root "Logs",
     winJoin root "Downloads",
     winJoin root "vergegrid.conf"]
  if lowerStarts php_root apache_root then base else base ++ [php_root]

/-- Log messages emitted by `backup_install`. -/
inductive BMsg
  | skipMissing (p : String)
  | fatalNoFiles
  | warnFailedAdd (f : String)
  | corruptEntry (f : String)
  | fatalRepeated (f : String)
  | infoRetrying
  | fatalRetriesExhausted
  | okIntegrity
deriving Repr, DecidableEq

/-- The file-list construction of lines 218–228: each declared path that does
not exist is skipped with a warning; an existing file contributes itself; an
existing directory contributes its walked files. -/
def buildFileList (fs : FS) : List String → List String × List BMsg
  | [] => ([], [])
  | p :: rest =>
    let (files, skips) := buildFileList fs rest
    if !fs.pathExists p then (files, .skipMissing p :: skips)
    else if fs.isFile p then (p :: files, skips)
    else (fs.walkFiles p ++ files, skips)

/-- Terminal outcome of `backup_install`: the Python function returns the
archive path on success and `None` on each failure; the distinct `None`
returns are distinguished here by the log line that precedes them
(no-files, repeated corruption, retries exhausted). -/
inductive BackupResult
  | success (entries : List String)
  | noFilesFound
  | repeatedCorruption (f : String)
  | retriesExhausted
deriving Repr, DecidableEq

/-- Environment of a backup run: the file-system snapshot used by the path
scan, the loaded configuration, which individual `zf.write` calls raise
(line 275–277), and the result of `zf.testzip()` on the archive produced by
the attempt with the given `retry_count` (line 293; `none` = archive clean). -/
structure BackupEnv where
  fs : FS
  cfg : Config
  addFails : String → Bool
  badEntry : Nat → Option String

/-- Observable trace of a `backup_install` call tree: the terminal result,
the total number of archive-creation attempts made, whether any archive file
was ever opened for writing, and the accumulated log. -/
structure BackupRun where
  result : BackupResult
  attempts : Nat
  archiveCreated : Bool
  logs : List BMsg
deriving Repr, DecidableEq

/-- Embedding of `backup_install` (lines 174–375).  `MAX_RETRIES` is
`conf.get("backup_max_retries", 2)`, i.e. `env.cfg.backup_max_retries`, since
`load_vergegrid_config` always populates that key.  One call scans the
declared paths (fast-failing with `NoFilesFound` on an empty list, before any
archive file is created), writes the archive (logging a warning per entry
that fails to add), then runs the integrity test: a corrupt entry already in
`failed_files` aborts permanently; otherwise the entry is recorded and the
call recurses with `retry_count + 1` while `retry_count + 1 < MAX_RETRIES`,
failing with retries-exhausted otherwise.  The interactive handling of a
previous failed archive (lines 341–369) and the checksum report (322–336)
do not affect the result and are elided. -/
def backup_install (env : BackupEnv) (root : String)
    (retry_count : Nat) (failed_files : List String) : BackupRun :=
  let (all_files, skips) := buildFileList env.fs (pathsToBackup root env.cfg)
  if all_files.isEmpty then
    { result := .noFilesFound, attempts := 1, archiveCreated := false,
      logs := skips ++ [.fatalNoFiles] }
  else
    let entries := all_files.filter (fun f => !env.addFails f)
    let addWarns := (all_files.filter (fun f => env.addFails f)).map BMsg.warnFailedAdd
    match env.badEntry retry_count with
    | none =>
      { result := .success entries, attempts := 1, archiveCreated := true,
        logs := skips ++ addWarns ++ [.okIntegrity] }
    | some bad =>
      if bad ∈ failed_files then
        { result := .repeatedCorruption bad, attempts := 1, archiveCreated := true,
          logs := skips ++ addWarns ++ [.corruptEntry bad, .fatalRepeated bad] }
      else if h : retry_count + 1 < env.cfg.backup_max_retries then
        let rest := backup_install env root (retry_count + 1) (bad :: failed_files)
        { result := rest.result, attempts := rest.attempts + 1,
          archiveCreated := true,
          logs := skips ++ addWarns ++ [.corruptEntry bad, .infoRetrying] ++ rest.logs }
      else
        { result := .retriesExhausted, attempts := 1, archiveCreated := true,
          logs := skips ++ addWarns ++ [.corruptEntry bad, .fatalRetriesExhausted] }
termination_by env.cfg.backup_max_retries - retry_count
decreasing_by omega

/-! ## Concrete test environments

These instantiate the environments above at the concrete inputs used by the
witnesses and counterexamples. -/

/-- A data store that is reachable and has every core table. -/
def allCoreDB : DBState := { connectOk := true, tables := CORE_TABLES }

/-- A data store that is reachable but has no tables at all. -/
def noTablesDB : DBState := { connectOk := true, tables := [] }

/-- A data store that cannot be reached. -/
def noConnDB : DBState := { connectOk := false, tables := [] }

/-- A data store missing exactly the core table `useraccounts`. -/
def missingCoreDB : DBState :=
  { connectOk := true, tables := CORE_TABLES.filter (fun t => t ≠ "useraccounts") }

/-- Baseline launch environment: everything present, launch succeeds, the
monitor fails to attach, the first verification pass finds all core tables,
and the process ignores the graceful interrupt and the terminate request. -/
def envBase : LVEnv :=
  { exeExists := true, iniExists := true, launchOk := true, attachOk := false,
    runningInit := fun _ => true, cpuActive := fun _ => true,
    runningW1 := fun _ => true, db1 := allCoreDB,
    runningW2 := fun _ => true, db2 := noTablesDB,
    stillAfterBreak := true, stillAfterTerm := true, shutdownRaises := false }

/-- Launch environment whose configuration file is missing. -/
def envIniMissing : LVEnv := { envBase with iniExists := false }

/-- Launch environment in which both verification passes find the schema
incomplete (the data store is reachable but has no tables). -/
def envIncompleteTwice : LVEnv := { envBase with db1 := noTablesDB }

/-- Launch environment in which pass 1 hits a connection error and the data
store is fully populated by the time of pass 2. -/
def envConnErrRetry : LVEnv := { envBase with db1 := noConnDB, db2 := allCoreDB }

/-- Launch environment with the monitor attached in which the process dies
two seconds into the first wait window. -/
def envDeathW1 : LVEnv :=
  { envBase with attachOk := true, runningW1 := fun t => decide (t < 2) }

/-- Launch environment with the monitor attached in which pass 1 is
incomplete and the process dies two seconds into the second wait window. -/
def envDeathW2 : LVEnv :=
  { envBase with attachOk := true, db1 := noTablesDB,
                 runningW2 := fun t => decide (t < 2) }

/-- Launch environment with no monitor attached and a data store that never
becomes reachable, so both wait windows and both passes run. -/
def envNoMonitor : LVEnv := { envBase with db1 := noConnDB, db2 := noConnDB }

/-- The install root of the backup scenario. -/
def scenarioRoot : String := "D:\\VergeGrid"

/-- File system of the backup scenario: three files under `Logs`, two under
`Downloads`, the `vergegrid.conf` file, and no `MySQL` / `Apache` / `OpenSim`
sub-paths. -/
def scenarioFS : FS :=
  { pathExists := fun p =>
      p == winJoin scenarioRoot "Logs" || p == winJoin scenarioRoot "Downloads" ||
      p == winJoin scenarioRoot "vergegrid.conf",
    isFile := fun p => p == winJoin scenarioRoot "vergegrid.conf",
    walkFiles := fun p =>
      if p == winJoin scenarioRoot "Logs" then
        [winJoin (winJoin scenarioRoot "Logs") "a.log",
         winJoin (winJoin scenarioRoot "Logs") "b.log",
         winJoin (winJoin scenarioRoot "Logs") "c.log"]
      else if p == winJoin scenarioRoot "Downloads" then
        [winJoin (winJoin scenarioRoot "Downloads") "d1.zip",
         winJoin (winJoin scenarioRoot "Downloads") "d2.zip"]
      else [] }

/-- Backup environment for the scenario of P1: default configuration, no
individual add failures, and a clean integrity test. -/
def scenarioEnv : BackupEnv :=
  { fs := scenarioFS, cfg := {}, addFails := fun _ => false,
    badEntry := fun _ => none }

/-- The six files the scenario backup is expected to archive. -/
def scenarioEntries : List String :=
  [winJoin (winJoin scenarioRoot "Logs") "a.log",
   winJoin (winJoin scenarioRoot "Logs") "b.log",
   winJoin (winJoin scenarioRoot "Logs") "c.log",
   winJoin (winJoin scenarioRoot "Downloads") "d1.zip",
   winJoin (winJoin scenarioRoot "Downloads") "d2.zip",
   winJoin scenarioRoot "vergegrid.conf"]

/-- Recognizer for the skip-missing warning, used to count skip logs. -/
def isSkipMsg : BMsg → Bool
  | .skipMissing _ => true
  | _ => false

/-- Backup environment over the scenario file system whose integrity test
reports the same corrupted entry on every attempt, with
`backup_max_retries = k`. -/
def corruptEnv (k : Nat) : BackupEnv :=
  { fs := scenarioFS, cfg := { backup_max_retries := k },
    addFails := fun _ => false, badEntry := fun _ => some "E" }

/-- Backup environment whose file system has none of the declared paths. -/
def emptyEnv : BackupEnv :=
  { fs := { pathExists := fun _ => false, isFile := fun _ => false,
            walkFiles := fun _ => [] },
    cfg := {}, addFails := fun _ => false, badEntry := fun _ => none }

/-! ## Helper lemmas -/

/-- Without an attached monitor, a wait window never detects an exit. -/
theorem waitWindow_not_attached (running : Nat → Bool) :
    ∀ n t, waitWindow false running n t = none := by
  intro n
  induction n with
  | zero => intro t; rfl
  | succ n ih => intro t; simp [waitWindow, ih]

/-- Without an attached monitor, the start-up loop never observes activity. -/
theorem initWait_not_attached (running cpu : Nat → Bool) :
    ∀ n i, initWait false running cpu n i = false := by
  intro n
  induction n with
  | zero => intro i; rfl
  | succ n ih => intro i; simp [initWait, ih]

/-- With an attached monitor, a wait window over a process that dies at tick
`d` detects the exit exactly at tick `d`. -/
theorem waitWindow_detect (running : Nat → Bool) (d : Nat)
    (h : ∀ t, running t = decide (t < d)) :
    ∀ n t0, t0 ≤ d → d < t0 + n → waitWindow true running n t0 = some d := by
  intro n
  induction n with
  | zero => intro t0 h1 h2; omega
  | succ n ih =>
    intro t0 h1 h2
    by_cases hd : t0 = d
    · subst hd
      simp [waitWindow, h t0]
    · have hlt : t0 < d := by omega
      have hr : running t0 = true := by rw [h t0]; simp [hlt]
      simp [waitWindow, hr]
      exact ih (t0 + 1) (by omega) (by omega)

/-- A wait window over a process that stays alive runs to completion. -/
theorem waitWindow_all_running (running : Nat → Bool)
    (h : ∀ t, running t = true) (a : Bool) :
    ∀ n t, waitWindow a running n t = none := by
  intro n
  induction n with
  | zero => intro t; rfl
  | succ n ih => intro t; simp [waitWindow, h t, ih]

/-- The result code of `verify_robust_db` as a closed expression over the
data-store state. -/
theorem verify_code_eq (db : DBState) :
    (verify_robust_db db).1 =
      (if !db.connectOk then 1
       else if !(CORE_TABLES.filter (fun t => !db.tables.contains t)).isEmpty then 2
       else 0) := by
  unfold verify_robust_db
  cases db.connectOk <;> simp
  split <;> simp_all

/-- When every declared path is missing, the scan collects nothing and logs
one skip warning per path. -/
theorem buildFileList_all_missing (fs : FS) :
    ∀ paths : List String, (∀ p ∈ paths, fs.pathExists p = false) →
      buildFileList fs paths = ([], paths.map BMsg.skipMissing) := by
  intro paths
  induction paths with
  | nil => intro _; rfl
  | cons p rest ih =>
    intro h
    have hp : fs.pathExists p = false := h p (by simp)
    have hrest := ih (fun q hq => h q (by simp [hq]))
    simp [buildFileList, hrest, hp]

/-- Every file the scan collects comes from one of the declared paths:
either it is the path itself or it is found by walking the path. -/
theorem buildFileList_sources (fs : FS) :
    ∀ (paths : List String) (f : String), f ∈ (buildFileList fs paths).1 →
      ∃ p ∈ paths, f = p ∨ f ∈ fs.walkFiles p := by
  intro paths
  induction paths with
  | nil => intro f hf; simp [buildFileList] at hf
  | cons p rest ih =>
    intro f hf
    rw [buildFileList] at hf
    rcases hbl : buildFileList fs rest with ⟨files, skips⟩
    rw [hbl] at hf
    by_cases hp : fs.pathExists p
    · by_cases hisf : fs.isFile p
      · simp [hp, hisf] at hf
        rcases hf with hf | hf
        · exact ⟨p, by simp, Or.inl hf⟩
        · obtain ⟨q, hq, hfq⟩ := ih f (by rw [hbl]; exact hf)
          exact ⟨q, by simp [hq], hfq⟩
      · simp [hp, hisf] at hf
        rcases hf with hf | hf
        · exact ⟨p, by simp, Or.inr hf⟩
        · obtain ⟨q, hq, hfq⟩ := ih f (by rw [hbl]; exact hf)
          exact ⟨q, by simp [hq], hfq⟩
    · simp [hp] at hf
      obtain ⟨q, hq, hfq⟩ := ih f (by rw [hbl]; exact hf)
      exact ⟨q, by simp [hq], hfq⟩

/-- The entries that survive the filter are the whole list minus the ones
that fail the predicate. -/
theorem length_filter_not_eq_sub {α : Type} (p : α → Bool) :
    ∀ l : List α, (l.filter (fun a => !p a)).length = l.length - (l.filter p).length := by
  intro l
  induction l with
  | nil => rfl
  | cons a l ih =>
    have hle := List.length_filter_le p l
    cases ha : p a <;> simp [List.filter_cons, ha, ih]
    all_goals omega

/-- Whatever the retry depth, a successful `backup_install` returns exactly
the scanned files that did not individually fail to add. -/
theorem backup_success_entries (env : BackupEnv) (root : String) :
    ∀ (rc : Nat) (failed : List String), ∀ entries : List String,
      (backup_install env root rc failed).result = .success entries →
      entries = (buildFileList env.fs (pathsToBackup root env.cfg)).1.filter
        (fun f => !env.addFails f) := by
  intro rc failed
  induction rc, failed using backup_install.induct env root with
  | case1 rc failed files skips hbl hempty =>
    intro entries h
    rw [backup_install, hbl] at h
    simp [hempty] at h
  | case2 rc failed files skips hbl hempty hnone =>
    intro entries h
    rw [backup_install, hbl] at h
    simp [hempty, hnone] at h
    rw [← h, hbl]
  | case3 rc failed files skips hbl hempty bad hbad hmem =>
    intro entries h
    rw [backup_install, hbl] at h
    simp [hempty, hbad, hmem] at h
  | case4 rc failed files skips hbl hempty bad hbad hmem hlt ih =>
    intro entries h
    rw [backup_install, hbl] at h
    simp [hempty, hbad, hmem, hlt] at h
    exact ih entries h
  | case5 rc failed files skips hbl hempty bad hbad hmem hlt =>
    intro entries h
    rw [backup_install, hbl] at h
    simp [hempty, hbad, hmem, hlt] at h

/-! ## Claim theorems -/

/-- C6: the schema check returns `Incomplete` (code 2) exactly when the store
is reachable and at least one core table is missing; it returns
`ConnectionError` (code 1, distinct from 2) exactly when the store is
unreachable; the result code depends only on connectivity and on core-table
membership, so a missing optional table never fails the check; and a missing
optional table produces an informational log entry. -/
theorem verify_schema_check (db : DBState) :
    ((verify_robust_db db).1 = 1 ↔ db.connectOk = false) ∧
    ((verify_robust_db db).1 = 2 ↔ (db.connectOk = true ∧
      ∃ t ∈ CORE_TABLES, db.tables.contains t = false)) ∧
    ((verify_robust_db db).1 = 0 ↔ (db.connectOk = true ∧
      ∀ t ∈ CORE_TABLES, db.tables.contains t = true)) ∧
    (∀ db' : DBState, db.connectOk = db'.connectOk →
      (∀ t ∈ CORE_TABLES, db.tables.contains t = db'.tables.contains t) →
      (verify_robust_db db).1 = (verify_robust_db db').1) ∧
    (db.connectOk = true →
      OPTIONAL_TABLES.filter (fun t => !db.tables.contains t) ≠ [] →
      VMsg.infoOptionalMissing (OPTIONAL_TABLES.filter (fun t => !db.tables.contains t))
        ∈ (verify_robust_db db).2) := by
  refine ⟨?_, ?_, ?_, ?_, ?_⟩
  · unfold verify_robust_db
    cases hc : db.connectOk <;> simp
    split <;> simp_all
  · unfold verify_robust_db
    cases hc : db.connectOk <;> simp
    · split <;> simp_all [List.filter_eq_nil_iff]
  · unfold verify_robust_db
    cases hc : db.connectOk <;> simp
    split <;> simp_all [List.filter_eq_nil_iff]
  · intro db' hco hct
    have hfe : CORE_TABLES.filter (fun t => !db.tables.contains t) =
        CORE_TABLES.filter (fun t => !db'.tables.contains t) :=
      List.filter_congr (fun t ht => by rw [hct t ht])
    rw [verify_code_eq, verify_code_eq, hco, hfe]
  · intro hc hopt
    unfold verify_robust_db
    simp [hc]
    split <;> simp_all [List.isEmpty_iff]

/-- C6 witness, mirroring the spec scenario: with the core table
`useraccounts` absent the check is incomplete (code 2); with every core table
present and every optional table absent the check succeeds (code 0) with an
informational note listing the missing optional tables. -/
theorem verify_schema_check_witness :
    (verify_robust_db missingCoreDB).1 = 2 ∧
    (verify_robust_db allCoreDB).1 = 0 ∧
    VMsg.infoOptionalMissing OPTIONAL_TABLES ∈ (verify_robust_db allCoreDB).2 := by
  refine ⟨?_, ?_, ?_⟩
  · exact (verify_schema_check missingCoreDB).2.1.mpr
      ⟨rfl, "useraccounts", by decide, by decide⟩
  · exact (verify_schema_check allCoreDB).2.2.1.mpr ⟨rfl, by decide⟩
  · have h := (verify_schema_check allCoreDB).2.2.2.2 rfl (by decide)
    have he : OPTIONAL_TABLES.filter (fun t => !allCoreDB.tables.contains t) =
        OPTIONAL_TABLES := by decide
    rw [he] at h
    exact h

/-- C1 counterexample: the config-missing category and the
schema-incomplete-after-two-passes category are different fatal categories
that terminate with the same exit code 2, so the exit codes are not
pairwise distinct across fatal categories. -/
theorem exit_code_collision_ini_missing_incomplete :
    (launch_and_verify envIniMissing).fatalCat ≠
      (launch_and_verify envIncompleteTwice).fatalCat ∧
    (launch_and_verify envIniMissing).exitCode =
      (launch_and_verify envIncompleteTwice).exitCode ∧
    (launch_and_verify envIniMissing).exitCode ≠ 0 := by
  decide

/-- C1 amended: `launch_and_verify` always returns a code from the fixed
enumeration 0–5, equal to the code assigned to the terminal category
(0 = success, executable missing = 1, config missing = 2, launch failure = 3,
exit during wait pass 1 = 4, exit during wait pass 2 = 5, schema incomplete
after two passes = 2); the code is 0 exactly on success, but config-missing
and incomplete-after-two-passes share code 2. -/
theorem launch_exit_code_matches_category (env : LVEnv) :
    (launch_and_verify env).exitCode = codeOfCat (launch_and_verify env).fatalCat ∧
    ((launch_and_verify env).exitCode = 0 ↔ (launch_and_verify env).fatalCat = none) ∧
    (launch_and_verify env).exitCode ≤ 5 := by
  unfold launch_and_verify
  repeat' split
  all_goals simp [codeOfCat]

/-- C2 counterexample: a pass-1 connection error (result code 1) does not
fail immediately; the run enters the second wait window, performs pass 2,
and here even exits with the success code. -/
theorem connection_error_pass1_is_retried :
    (launch_and_verify envConnErrRetry).pass1 = some 1 ∧
    (launch_and_verify envConnErrRetry).enteredRetryWait = true ∧
    (launch_and_verify envConnErrRetry).pass2 = some 0 ∧
    (launch_and_verify envConnErrRetry).exitCode = 0 := by
  decide

/-- C2 amended: after a completed first wait window, any non-zero pass-1
result — connection error (1) just like schema-incomplete (2) — triggers the
second wait window, and if that window also completes, pass 2 is performed;
only a zero pass-1 result skips the retry. -/
theorem nonzero_pass1_triggers_retry (env : LVEnv)
    (hexe : env.exeExists = true) (hini : env.iniExists = true)
    (hlaunch : env.launchOk = true)
    (hw1 : waitWindow env.attachOk env.runningW1 30 0 = none) :
    ((launch_and_verify env).enteredRetryWait = true ↔ (verify_robust_db env.db1).1 ≠ 0) ∧
    ((verify_robust_db env.db1).1 ≠ 0 →
      waitWindow env.attachOk env.runningW2 30 0 = none →
      (launch_and_verify env).pass2 = some (verify_robust_db env.db2).1) := by
  cases hv : verify_robust_db env.db1 with
  | mk r1 lg1 =>
    unfold launch_and_verify
    simp only [hexe, hini, hlaunch, hw1, hv, Bool.not_true, Bool.false_eq_true, if_false]
    by_cases h1 : r1 = 0
    · simp [h1]
    · cases hw2 : waitWindow env.attachOk env.runningW2 30 0 with
      | none => by_cases h2 : (verify_robust_db env.db2).1 = 0 <;> simp [h1, hw2, h2]
      | some t => simp [h1, hw2]

/-- C2 amended witness, instantiated at the connection-error environment. -/
theorem nonzero_pass1_triggers_retry_witness :
    ((launch_and_verify envConnErrRetry).enteredRetryWait = true ↔
      (verify_robust_db envConnErrRetry.db1).1 ≠ 0) ∧
    ((verify_robust_db envConnErrRetry.db1).1 ≠ 0 →
      waitWindow envConnErrRetry.attachOk envConnErrRetry.runningW2 30 0 = none →
      (launch_and_verify envConnErrRetry).pass2 =
        some (verify_robust_db envConnErrRetry.db2).1) :=
  nonzero_pass1_triggers_retry envConnErrRetry rfl rfl rfl (by decide)

/-- C7: whenever a verification pass reaches `Complete`, `launch_and_verify`
returns the success code 0; the shutdown escalation (interrupt, wait;
terminate, wait; force-kill) always runs, a shutdown exception only logs a
warning, and a process that ignores both the interrupt and the terminate
request is force-killed while the run still succeeds. -/
theorem complete_verification_returns_success (env : LVEnv)
    (h : (launch_and_verify env).verifiedComplete = true) :
    (launch_and_verify env).exitCode = 0 ∧
    (launch_and_verify env).stopSeq = some (shutdownSeq env) ∧
    (env.shutdownRaises = true → LMsg.warnShutdownFailed ∈ (launch_and_verify env).logs) ∧
    (env.shutdownRaises = false → env.stillAfterBreak = true → env.stillAfterTerm = true →
      (launch_and_verify env).stopSeq = some StopOutcome.forceKilled) := by
  unfold launch_and_verify at h ⊢
  repeat' split at h
  all_goals simp_all [shutdownSeq]

/-- C7 witness: a run that verifies on pass 1 against a process that ignores
both the interrupt and the terminate request still exits with code 0 after
escalating to force-kill. -/
theorem complete_verification_returns_success_witness :
    (launch_and_verify envBase).exitCode = 0 ∧
    (launch_and_verify envBase).stopSeq = some StopOutcome.forceKilled := by
  have h := complete_verification_returns_success envBase (by decide)
  exact ⟨h.1, h.2.2.2 rfl rfl rfl⟩

/-- C8: in every terminal outcome in which the process was actually launched,
the run ends with the process either observed dead during a wait window,
stopped by the escalation sequence (poll-confirmed or force-killed), subject
to a logged shutdown-failure warning, or explicitly left running with a
logged warning (the incomplete-after-two-passes case). -/
theorem terminal_disposition (env : LVEnv)
    (h : (launch_and_verify env).launched = true) :
    ((launch_and_verify env).fatalCat = some FatalCat.exitedWait1 ∨
     (launch_and_verify env).fatalCat = some FatalCat.exitedWait2) ∨
    ((launch_and_verify env).stopSeq = some StopOutcome.stoppedAfterBreak ∨
     (launch_and_verify env).stopSeq = some StopOutcome.stoppedAfterTerminate ∨
     (launch_and_verify env).stopSeq = some StopOutcome.forceKilled) ∨
    ((launch_and_verify env).stopSeq = some StopOutcome.raised ∧
      LMsg.warnShutdownFailed ∈ (launch_and_verify env).logs) ∨
    ((launch_and_verify env).fatalCat = some FatalCat.incompleteAfterRetry ∧
      LMsg.warnLeftRunning ∈ (launch_and_verify env).logs) := by
  unfold launch_and_verify at h ⊢
  repeat' split at h
  all_goals rcases hs : shutdownSeq env with _ | _ | _ | _ <;> simp_all

/-- C8 witness, instantiated at the baseline environment (launched, verified
on pass 1, stubborn process force-killed). -/
theorem terminal_disposition_witness :
    ((launch_and_verify envBase).fatalCat = some FatalCat.exitedWait1 ∨
     (launch_and_verify envBase).fatalCat = some FatalCat.exitedWait2) ∨
    ((launch_and_verify envBase).stopSeq = some StopOutcome.stoppedAfterBreak ∨
     (launch_and_verify envBase).stopSeq = some StopOutcome.stoppedAfterTerminate ∨
     (launch_and_verify envBase).stopSeq = some StopOutcome.forceKilled) ∨
    ((launch_and_verify envBase).stopSeq = some StopOutcome.raised ∧
      LMsg.warnShutdownFailed ∈ (launch_and_verify envBase).logs) ∨
    ((launch_and_verify envBase).fatalCat = some FatalCat.incompleteAfterRetry ∧
      LMsg.warnLeftRunning ∈ (launch_and_verify envBase).logs) :=
  terminal_disposition envBase (by decide)

/-- C9: with the liveness monitor attached, each wait window re-checks
liveness at every one-second tick, so a process that dies at tick `d` of a
30-tick window is detected at the very next check: the run reports exit
code 4 (pass 1) or 5 (pass 2) after exactly `d + 1` loop iterations, not
after the full window. -/
theorem wait_window_early_exit_detection :
    (∀ (env : LVEnv) (d : Nat),
      env.exeExists = true → env.iniExists = true → env.launchOk = true →
      env.attachOk = true → (∀ t, env.runningW1 t = decide (t < d)) → d < 30 →
      (launch_and_verify env).exitCode = 4 ∧ (launch_and_verify env).w1Ticks = d + 1) ∧
    (∀ (env : LVEnv) (d : Nat),
      env.exeExists = true → env.iniExists = true → env.launchOk = true →
      env.attachOk = true → (∀ t, env.runningW1 t = true) →
      (verify_robust_db env.db1).1 ≠ 0 →
      (∀ t, env.runningW2 t = decide (t < d)) → d < 30 →
      (launch_and_verify env).exitCode = 5 ∧ (launch_and_verify env).w2Ticks = d + 1) := by
  constructor
  · intro env d hexe hini hlaunch hatt hrun hd
    have hw1 : waitWindow env.attachOk env.runningW1 30 0 = some d := by
      rw [hatt]
      exact waitWindow_detect env.runningW1 d hrun 30 0 (Nat.zero_le d) (by omega)
    unfold launch_and_verify
    simp [hexe, hini, hlaunch, hw1]
  · intro env d hexe hini hlaunch hatt hrun1 hr1 hrun2 hd
    have hw1 : waitWindow env.attachOk env.runningW1 30 0 = none :=
      waitWindow_all_running env.runningW1 hrun1 env.attachOk 30 0
    have hw2 : waitWindow env.attachOk env.runningW2 30 0 = some d := by
      rw [hatt]
      exact waitWindow_detect env.runningW2 d hrun2 30 0 (Nat.zero_le d) (by omega)
    cases hv : verify_robust_db env.db1 with
    | mk r1 lg1 =>
      rw [hv] at hr1
      unfold launch_and_verify
      simp [hexe, hini, hlaunch, hw1, hw2, hv, hr1]

/-- C9 witness: a process dying two seconds into the first (resp. second)
wait window is reported with exit code 4 (resp. 5) after three loop
iterations, far short of the 30-tick window. -/
theorem wait_window_early_exit_detection_witness :
    ((launch_and_verify envDeathW1).exitCode = 4 ∧
      (launch_and_verify envDeathW1).w1Ticks = 2 + 1) ∧
    ((launch_and_verify envDeathW2).exitCode = 5 ∧
      (launch_and_verify envDeathW2).w2Ticks = 2 + 1) :=
  ⟨wait_window_early_exit_detection.1 envDeathW1 2 rfl rfl rfl rfl
      (fun _ => rfl) (by decide),
   wait_window_early_exit_detection.2 envDeathW2 2 rfl rfl rfl rfl
      (fun _ => rfl) (by decide) (fun _ => rfl) (by decide)⟩

/-- C10: when the liveness monitor fails to attach, every liveness test is
skipped, so the early-exit codes 4 and 5 are unreachable, the first wait
window always runs its full 30 ticks (and so does the second whenever it is
entered), and the start-up responsiveness check never succeeds. -/
theorem no_monitor_no_detection (env : LVEnv)
    (hexe : env.exeExists = true) (hini : env.iniExists = true)
    (hlaunch : env.launchOk = true) (hatt : env.attachOk = false) :
    (launch_and_verify env).exitCode ≠ 4 ∧ (launch_and_verify env).exitCode ≠ 5 ∧
    (launch_and_verify env).w1Ticks = 30 ∧
    (launch_and_verify env).responsive = false ∧
    ((launch_and_verify env).enteredRetryWait = true → (launch_and_verify env).w2Ticks = 30) := by
  cases hv : verify_robust_db env.db1 with
  | mk r1 lg1 =>
    unfold launch_and_verify
    simp only [hexe, hini, hlaunch, hatt, Bool.not_true, Bool.false_eq_true, if_false,
      waitWindow_not_attached, initWait_not_attached, hv]
    by_cases h1 : r1 = 0
    · simp [h1]
    · by_cases h2 : (verify_robust_db env.db2).1 = 0 <;> simp [h1, h2]

/-- C10 witness: with no monitor and an unreachable data store on both
passes, the run uses both full 30-tick windows, never reports codes 4 or 5,
and never observes responsiveness. -/
theorem no_monitor_no_detection_witness :
    (launch_and_verify envNoMonitor).exitCode ≠ 4 ∧
    (launch_and_verify envNoMonitor).exitCode ≠ 5 ∧
    (launch_and_verify envNoMonitor).w1Ticks = 30 ∧
    (launch_and_verify envNoMonitor).responsive = false ∧
    (launch_and_verify envNoMonitor).w2Ticks = 30 := by
  have h := no_monitor_no_detection envNoMonitor rfl rfl rfl rfl
  exact ⟨h.1, h.2.1, h.2.2.1, h.2.2.2.1, h.2.2.2.2 (by decide)⟩

/-- C3 counterexample: with `backup_max_retries = 0` the code still makes
its first archive-creation attempt, so a source that always produces the
same corrupted entry yields one attempt, exceeding the claimed bound of
`maxRetries = 0` attempts. -/
theorem zero_max_retries_one_attempt :
    (backup_install (corruptEnv 0) scenarioRoot 0 []).attempts = 1 ∧
    (corruptEnv 0).cfg.backup_max_retries = 0 ∧
    ¬((backup_install (corruptEnv 0) scenarioRoot 0 []).attempts ≤
        (corruptEnv 0).cfg.backup_max_retries) := by
  have h : (backup_install (corruptEnv 0) scenarioRoot 0 []).attempts = 1 := by
    rw [backup_install]
    decide
  refine ⟨h, rfl, ?_⟩
  rw [h]
  decide

/-- C3 amended: for `backup_max_retries = K ≥ 1`, a source whose integrity
test always reports the same corrupted entry makes at most K (indeed at most
two) archive-creation attempts and terminates with repeated-corruption or
retries-exhausted; the recursion is bounded because a corrupt entry already
in the ledger aborts immediately.  (At K = 0 the first attempt still runs,
so the bound is `max K 1` in general.) -/
theorem retry_bound_constant_corruption (env : BackupEnv) (root : String)
    (E : String) (hbad : ∀ n, env.badEntry n = some E)
    (hne : (buildFileList env.fs (pathsToBackup root env.cfg)).1.isEmpty = false)
    (hK : 1 ≤ env.cfg.backup_max_retries) :
    (backup_install env root 0 []).attempts ≤ env.cfg.backup_max_retries ∧
    ((backup_install env root 0 []).result = .repeatedCorruption E ∨
     (backup_install env root 0 []).result = .retriesExhausted) := by
  rcases hbl : buildFileList env.fs (pathsToBackup root env.cfg) with ⟨files, skips⟩
  rw [hbl] at hne
  by_cases hlt : 0 + 1 < env.cfg.backup_max_retries
  · have h1res : (backup_install env root 1 [E]).result = .repeatedCorruption E := by
      rw [backup_install, hbl]
      simp [hne, hbad 1]
    have h1att : (backup_install env root 1 [E]).attempts = 1 := by
      rw [backup_install, hbl]
      simp [hne, hbad 1]
    rw [backup_install, hbl]
    simp only [hne, Bool.false_eq_true, if_false, hbad 0]
    simp only [List.not_mem_nil, if_false, hlt, dif_pos]
    constructor
    · simp [h1att]
      omega
    · simp [h1res]
  · rw [backup_install, hbl]
    simp only [hne, Bool.false_eq_true, if_false, hbad 0]
    simp [hlt]
    omega

/-- C3 amended witness: with `backup_max_retries = 3` and a constantly
corrupt entry, the run stays within the bound and ends in
repeated-corruption or retries-exhausted. -/
theorem retry_bound_constant_corruption_witness :
    (backup_install (corruptEnv 3) scenarioRoot 0 []).attempts ≤
      (corruptEnv 3).cfg.backup_max_retries ∧
    ((backup_install (corruptEnv 3) scenarioRoot 0 []).result =
        .repeatedCorruption "E" ∨
     (backup_install (corruptEnv 3) scenarioRoot 0 []).result =
        .retriesExhausted) :=
  retry_bound_constant_corruption (corruptEnv 3) scenarioRoot "E"
    (fun _ => rfl) (by decide) (by decide)

/-- C4: in every successful run of `backup_install`, the archive holds
exactly the scanned files that did not individually fail to add — so its
entry count is the number of existing backup-worthy files minus the
individual add failures — and every archived file comes from a declared
backup path (either the path itself or a file found by walking it). -/
theorem backup_archive_completeness (env : BackupEnv) (root : String)
    (rc : Nat) (failed entries : List String)
    (h : (backup_install env root rc failed).result = .success entries) :
    entries = (buildFileList env.fs (pathsToBackup root env.cfg)).1.filter
      (fun f => !env.addFails f) ∧
    entries.length = (buildFileList env.fs (pathsToBackup root env.cfg)).1.length -
      ((buildFileList env.fs (pathsToBackup root env.cfg)).1.filter
        (fun f => env.addFails f)).length ∧
    (∀ f ∈ entries, ∃ p ∈ pathsToBackup root env.cfg,
      f = p ∨ f ∈ env.fs.walkFiles p) := by
  have he := backup_success_entries env root rc failed entries h
  refine ⟨he, ?_, ?_⟩
  · rw [he]
    exact length_filter_not_eq_sub (fun f => env.addFails f) _
  · intro f hf
    rw [he] at hf
    exact buildFileList_sources env.fs _ f (List.mem_filter.mp hf).1

/-- C4 witness, the spec scenario: three files under `Logs`, two under
`Downloads`, the config file, and no `MySQL` / `Apache` / `OpenSim` paths
give a successful 6-entry archive with exactly three skip-missing warnings,
and the entry count matches the scanned count minus add failures. -/
theorem backup_archive_completeness_witness :
    (backup_install scenarioEnv scenarioRoot 0 []).result = .success scenarioEntries ∧
    scenarioEntries.length = 6 ∧
    (backup_install scenarioEnv scenarioRoot 0 []).logs.countP isSkipMsg = 3 ∧
    scenarioEntries.length =
      (buildFileList scenarioEnv.fs (pathsToBackup scenarioRoot scenarioEnv.cfg)).1.length -
      ((buildFileList scenarioEnv.fs (pathsToBackup scenarioRoot scenarioEnv.cfg)).1.filter
        (fun f => scenarioEnv.addFails f)).length := by
  have hres : (backup_install scenarioEnv scenarioRoot 0 []).result =
      .success scenarioEntries := by
    rw [backup_install]
    decide
  have hmain := backup_archive_completeness scenarioEnv scenarioRoot 0 []
    scenarioEntries hres
  refine ⟨hres, by decide, ?_, hmain.2.1⟩
  rw [backup_install]
  decide

/-- C5: when none of the declared backup paths exist, `backup_install` fails
immediately with no-files-found after a single attempt, never opens an
archive file, and logs one skip warning per declared path before the fatal
message. -/
theorem backup_empty_source_fast_fail (env : BackupEnv) (root : String)
    (h : ∀ p ∈ pathsToBackup root env.cfg, env.fs.pathExists p = false) :
    backup_install env root 0 [] =
      { result := .noFilesFound, attempts := 1, archiveCreated := false,
        logs := (pathsToBackup root env.cfg).map BMsg.skipMissing ++ [.fatalNoFiles] } := by
  rw [backup_install]
  rw [buildFileList_all_missing env.fs (pathsToBackup root env.cfg) h]
  simp

/-- C5 witness: on a file system with no declared path present, the run is
exactly the no-files-found fast failure. -/
theorem backup_empty_source_fast_fail_witness :
    backup_install emptyEnv scenarioRoot 0 [] =
      { result := .noFilesFound, attempts := 1, archiveCreated := false,
        logs := (pathsToBackup scenarioRoot emptyEnv.cfg).map BMsg.skipMissing ++
          [.fatalNoFiles] } :=
  backup_empty_source_fast_fail emptyEnv scenarioRoot (fun _ _ => rfl)

end VergeGrid
